import Mathlib

/-!
ggwave: the protocol table, the size bounds and the tone frequencies.

A shallow embedding of the parts of `include/ggwave/ggwave.h` that are defined in the
header: the enum `ggwave_TxProtocolId`, the constants of class `GGWave`, the struct
`GGWave::TxProtocol` with its comparison operators, the table `getTxProtocols()`, the
lookups `getTxProtocol` / `getDefaultTxProtocol`, and the inline member `bitFreq`.

C++ `int` values are modelled as `Int` (no arithmetic here comes near the 32-bit range),
`float` / `double` values as exact rationals `ℚ`, a `std::map` as its key-ordered list of
entries, and `std::map::at` as a lookup returning `Option` (`none` is `std::out_of_range`).
-/

namespace GGWave

/-! ## The enum `ggwave_TxProtocolId` (header lines 36-58) -/

/-- The enumerators of the C enum `ggwave_TxProtocolId`, in declaration order. -/
inductive ggwave_TxProtocolId
  | GGWAVE_TX_PROTOCOL_AUDIBLE_NORMAL
  | GGWAVE_TX_PROTOCOL_AUDIBLE_FAST
  | GGWAVE_TX_PROTOCOL_AUDIBLE_FASTEST
  | GGWAVE_TX_PROTOCOL_ULTRASOUND_NORMAL
  | GGWAVE_TX_PROTOCOL_ULTRASOUND_FAST
  | GGWAVE_TX_PROTOCOL_ULTRASOUND_FASTEST
  | GGWAVE_TX_PROTOCOL_DT_NORMAL
  | GGWAVE_TX_PROTOCOL_DT_FAST
  | GGWAVE_TX_PROTOCOL_DT_FASTEST
  | GGWAVE_TX_PROTOCOL_CUSTOM_0
  | GGWAVE_TX_PROTOCOL_CUSTOM_1
  | GGWAVE_TX_PROTOCOL_CUSTOM_2
  | GGWAVE_TX_PROTOCOL_CUSTOM_3
  | GGWAVE_TX_PROTOCOL_CUSTOM_4
  | GGWAVE_TX_PROTOCOL_CUSTOM_5
  | GGWAVE_TX_PROTOCOL_CUSTOM_6
  | GGWAVE_TX_PROTOCOL_CUSTOM_7
  | GGWAVE_TX_PROTOCOL_CUSTOM_8
  | GGWAVE_TX_PROTOCOL_CUSTOM_9
  deriving DecidableEq, Repr, Fintype

open ggwave_TxProtocolId

/-- The integer value of an enumerator: no enumerator has an initialiser, so the first
is 0 and each next one is one more than its predecessor (C numbering rule). -/
def ggwave_TxProtocolId.toInt (id : ggwave_TxProtocolId) : Int :=
  (id.toCtorIdx : Nat)

/-- `using TxProtocolId = ggwave_TxProtocolId;` -/
abbrev TxProtocolId := ggwave_TxProtocolId

/-! ## Constants of class `GGWave` (header lines 307-320) -/

def kSampleRateMin : ℚ := 1000
def kSampleRateMax : ℚ := 96000
def kDefaultSampleRate : ℚ := 48000
def kDefaultSamplesPerFrame : Int := 1024
def kDefaultVolume : Int := 10
def kDefaultSoundMarkerThreshold : ℚ := 3
def kDefaultMarkerFrames : Int := 16
def kDefaultEncodedDataOffset : Int := 3
def kMaxSamplesPerFrame : Int := 1024
def kMaxDataSize : Int := 256
def kMaxLengthVariable : Int := 140
def kMaxLengthFixed : Int := 16
def kMaxSpectrumHistory : Int := 4
def kMaxRecordedFrames : Int := 2048

/-! ## `struct TxProtocol` (header lines 328-346) -/

/-- The struct `GGWave::TxProtocol`. -/
structure TxProtocol where
  name : String
  freqStart : Int
  framesPerTx : Int
  bytesPerTx : Int
  deriving DecidableEq, Repr

/-- `int nDataBitsPerTx() const { return 8*bytesPerTx; }` -/
def TxProtocol.nDataBitsPerTx (p : TxProtocol) : Int := 8 * p.bytesPerTx

/-- `bool operator==(const TxProtocol & other) const`: compares the three integer
fields with `&&`; the `name` pointer is not looked at. -/
def TxProtocol.operator_eq (p other : TxProtocol) : Bool :=
  p.freqStart == other.freqStart &&
  p.framesPerTx == other.framesPerTx &&
  p.bytesPerTx == other.bytesPerTx

/-- `bool operator!=(const TxProtocol & other) const { return !(*this == other); }` -/
def TxProtocol.operator_ne (p other : TxProtocol) : Bool :=
  !(p.operator_eq other)

/-- `using RxProtocol = TxProtocol;` -/
abbrev RxProtocol := TxProtocol

/-! ## The protocol table (header lines 350-367) -/

/-- `using TxProtocols = std::map<TxProtocolId, TxProtocol>;` as the list of its
entries. -/
abbrev TxProtocols := List (TxProtocolId × TxProtocol)

/-- `static const TxProtocols & getTxProtocols()`: the nine entries of `kTxProtocols`. -/
def getTxProtocols : TxProtocols :=
  [ (GGWAVE_TX_PROTOCOL_AUDIBLE_NORMAL,     ⟨"Normal",       40,  9, 3⟩),
    (GGWAVE_TX_PROTOCOL_AUDIBLE_FAST,       ⟨"Fast",         40,  6, 3⟩),
    (GGWAVE_TX_PROTOCOL_AUDIBLE_FASTEST,    ⟨"Fastest",      40,  3, 3⟩),
    (GGWAVE_TX_PROTOCOL_ULTRASOUND_NORMAL,  ⟨"[U] Normal",   320, 9, 3⟩),
    (GGWAVE_TX_PROTOCOL_ULTRASOUND_FAST,    ⟨"[U] Fast",     320, 6, 3⟩),
    (GGWAVE_TX_PROTOCOL_ULTRASOUND_FASTEST, ⟨"[U] Fastest",  320, 3, 3⟩),
    (GGWAVE_TX_PROTOCOL_DT_NORMAL,          ⟨"[DT] Normal",  24,  9, 1⟩),
    (GGWAVE_TX_PROTOCOL_DT_FAST,            ⟨"[DT] Fast",    24,  6, 1⟩),
    (GGWAVE_TX_PROTOCOL_DT_FASTEST,         ⟨"[DT] Fastest", 24,  3, 1⟩) ]

/-- The lookup `std::map::at` with the key given by its integer value: the entry whose
key has that value, `none` (the `std::out_of_range` exception) when there is none. -/
def TxProtocols.atValue (m : TxProtocols) (v : Int) : Option TxProtocol :=
  (m.find? (fun e => e.1.toInt == v)).map Prod.snd

/-- The lookup `std::map::at` for a key of the enum type. -/
def TxProtocols.at (m : TxProtocols) (id : TxProtocolId) : Option TxProtocol :=
  m.atValue id.toInt

/-- The number of entries of the map stored under the key `id`. -/
def TxProtocols.countKey (m : TxProtocols) (id : TxProtocolId) : Nat :=
  (m.map Prod.fst).count id

/-! ## Protocol lookup (header lines 453-457) -/

/-- `static TxProtocolId getDefaultTxProtocolId()` -/
def getDefaultTxProtocolId : TxProtocolId := GGWAVE_TX_PROTOCOL_AUDIBLE_FAST

/-- `static const TxProtocol & getDefaultTxProtocol()`:
`getTxProtocols().at(getDefaultTxProtocolId())`. -/
def getDefaultTxProtocol : Option TxProtocol :=
  getTxProtocols.at getDefaultTxProtocolId

/-- `static const TxProtocol & getTxProtocol(int id)`:
`getTxProtocols().at(TxProtocolId(id))`; the conversion `TxProtocolId(id)` keeps the
integer value. -/
def getTxProtocol (id : Int) : Option TxProtocol :=
  getTxProtocols.atValue id

/-- `static const TxProtocol & getTxProtocol(TxProtocolId id)`:
`getTxProtocols().at(id)`. -/
def getTxProtocolOfId (id : TxProtocolId) : Option TxProtocol :=
  getTxProtocols.at id

/-! ## The naming scheme of the built-in enumerators -/

/-- The three families named by the built-in enumerators: `AUDIBLE`, `ULTRASOUND`, `DT`
(dual-tone). -/
inductive Family
  | audible
  | ultrasound
  | dualTone
  deriving DecidableEq, Repr, Fintype

/-- The three speeds named by the built-in enumerators: `NORMAL`, `FAST`, `FASTEST`. -/
inductive Speed
  | normal
  | fast
  | fastest
  deriving DecidableEq, Repr, Fintype

/-- The built-in enumerator `GGWAVE_TX_PROTOCOL_<family>_<speed>`. -/
def builtinId : Family → Speed → TxProtocolId
  | .audible,    .normal  => GGWAVE_TX_PROTOCOL_AUDIBLE_NORMAL
  | .audible,    .fast    => GGWAVE_TX_PROTOCOL_AUDIBLE_FAST
  | .audible,    .fastest => GGWAVE_TX_PROTOCOL_AUDIBLE_FASTEST
  | .ultrasound, .normal  => GGWAVE_TX_PROTOCOL_ULTRASOUND_NORMAL
  | .ultrasound, .fast    => GGWAVE_TX_PROTOCOL_ULTRASOUND_FAST
  | .ultrasound, .fastest => GGWAVE_TX_PROTOCOL_ULTRASOUND_FASTEST
  | .dualTone,   .normal  => GGWAVE_TX_PROTOCOL_DT_NORMAL
  | .dualTone,   .fast    => GGWAVE_TX_PROTOCOL_DT_FAST
  | .dualTone,   .fastest => GGWAVE_TX_PROTOCOL_DT_FASTEST

/-- The ten enumerators `GGWAVE_TX_PROTOCOL_CUSTOM_0 .. GGWAVE_TX_PROTOCOL_CUSTOM_9`, in
the order of their digit. -/
def customIds : List TxProtocolId :=
  [ GGWAVE_TX_PROTOCOL_CUSTOM_0, GGWAVE_TX_PROTOCOL_CUSTOM_1, GGWAVE_TX_PROTOCOL_CUSTOM_2,
    GGWAVE_TX_PROTOCOL_CUSTOM_3, GGWAVE_TX_PROTOCOL_CUSTOM_4, GGWAVE_TX_PROTOCOL_CUSTOM_5,
    GGWAVE_TX_PROTOCOL_CUSTOM_6, GGWAVE_TX_PROTOCOL_CUSTOM_7, GGWAVE_TX_PROTOCOL_CUSTOM_8,
    GGWAVE_TX_PROTOCOL_CUSTOM_9 ]

/-! ## Tone frequencies (header lines 555-573) -/

/-- The private data members of a `GGWave` instance that `bitFreq` reads, with the
operating parameters they are initialised from. The constructor's member initialisers
are not in the header, so the relations between these fields are hypotheses of the
theorems below. -/
structure Instance where
  m_sampleRate : ℚ
  m_samplesPerFrame : Int
  m_hzPerSample : ℚ
  m_freqDelta_hz : ℚ
  deriving DecidableEq, Repr

/-- A concrete instance at the default operating parameters: 48000 Hz, 1024 samples per
frame, so 46.875 Hz per bin and a tone spacing of two bins. -/
def sampleInstance : Instance :=
  { m_sampleRate := 48000, m_samplesPerFrame := 1024,
    m_hzPerSample := 375 / 8, m_freqDelta_hz := 375 / 4 }

/-- `double bitFreq(const TxProtocol & p, int bit) const`:
`m_hzPerSample*p.freqStart + m_freqDelta_hz*bit`. -/
def Instance.bitFreq (g : Instance) (p : TxProtocol) (bit : Int) : ℚ :=
  g.m_hzPerSample * p.freqStart + g.m_freqDelta_hz * bit

/-! ## Frame count of a transmission -/

/-- The largest encoded length of a variable-length transmission: the length block of
`kDefaultEncodedDataOffset` bytes, `kMaxLengthVariable` payload bytes and a parity budget
of half the payload. -/
def maxEncodedLengthVariable : Int :=
  kDefaultEncodedDataOffset + kMaxLengthVariable + kMaxLengthVariable / 2

/-- Modelled from the spec: the number of frames of a variable-length transmission of `E`
encoded bytes under protocol `p`. The header only declares the accessors
`getFramesToRecord` / `getFramesToAnalyze`; the code that computes the count is not in it.
The count is the start and end markers of `kDefaultMarkerFrames` frames each, plus
`framesPerTx` frames for each of the `ceil(E / bytesPerTx)` symbols. -/
def framesForEncodedLength (p : TxProtocol) (E : Int) : Int :=
  2 * kDefaultMarkerFrames + ⌈(E : ℚ) / (p.bytesPerTx : ℚ)⌉ * p.framesPerTx


/-! ## Helper lemmas -/

theorem toInt_nonneg (id : TxProtocolId) : 0 ≤ id.toInt := by
  cases id <;> decide

theorem toInt_le (id : TxProtocolId) : id.toInt ≤ 18 := by
  cases id <;> decide

theorem toInt_injective : Function.Injective ggwave_TxProtocolId.toInt := by
  intro a b h
  cases a <;> cases b <;> first | rfl | (exact absurd h (by decide))

theorem atValue_none_of_not_builtin (v : Int) (hv : ¬ (0 ≤ v ∧ v ≤ 8)) :
    getTxProtocols.atValue v = none := by
  simp only [TxProtocols.atValue, Option.map_eq_none', List.find?_eq_none]
  intro e he
  simp only [getTxProtocols, List.mem_cons, List.mem_singleton, List.not_mem_nil,
    or_false] at he
  rcases he with h | h | h | h | h | h | h | h | h <;> subst h <;>
    simp [ggwave_TxProtocolId.toInt, ggwave_TxProtocolId.toCtorIdx] <;> omega

theorem atValue_of_mem (e : TxProtocolId × TxProtocol) (he : e ∈ getTxProtocols) :
    getTxProtocols.atValue e.1.toInt = some e.2 := by
  simp only [getTxProtocols, List.mem_cons, List.mem_singleton, List.not_mem_nil,
    or_false] at he
  rcases he with h | h | h | h | h | h | h | h | h <;> subst h <;> decide

/-! ## The claims -/

/-- C2: each of the nine entries of the table `getTxProtocols()` satisfies
`freqStart + 16*bytesPerTx <= N/2` for `N = kDefaultSamplesPerFrame = 1024`, that is
`freqStart + 16*bytesPerTx <= 512`. -/
theorem builtin_below_nyquist_default :
    getTxProtocols.length = 9 ∧
    kDefaultSamplesPerFrame = 1024 ∧
    kDefaultSamplesPerFrame / 2 = 512 ∧
    (∀ e ∈ getTxProtocols,
      e.2.freqStart + 16 * e.2.bytesPerTx ≤ kDefaultSamplesPerFrame / 2) ∧
    (∀ (id : TxProtocolId) (p : TxProtocol), getTxProtocols.at id = some p →
      p.freqStart + 16 * p.bytesPerTx ≤ 512) := by
  refine ⟨by decide, by decide, by decide, by decide, ?_⟩
  intro id p h
  cases id <;> simp [TxProtocols.at, TxProtocols.atValue, getTxProtocols,
    ggwave_TxProtocolId.toInt, ggwave_TxProtocolId.toCtorIdx] at h <;> subst h <;> decide

/-- C3 (as stated, refuted): at the default instance, protocol AUDIBLE_FAST and bit 1
(inside `[0, 8*bytesPerTx)`), with `m_hzPerSample = sampleRate/samplesPerFrame` and
`m_freqDelta_hz = 2*m_hzPerSample`, `bitFreq` is 1968.75 Hz (bin 42), not the
`(freqStart + 2*b + (b mod 2)) * sampleRate / samplesPerFrame` = 2015.625 Hz (bin 43)
of the claim. -/
theorem bitFreq_odd_bit_counterexample :
    sampleInstance.m_hzPerSample
      = sampleInstance.m_sampleRate / (sampleInstance.m_samplesPerFrame : ℚ) ∧
    sampleInstance.m_freqDelta_hz = 2 * sampleInstance.m_hzPerSample ∧
    getTxProtocolOfId GGWAVE_TX_PROTOCOL_AUDIBLE_FAST = some ⟨"Fast", 40, 6, 3⟩ ∧
    (0 : Int) ≤ 1 ∧ (1 : Int) < 8 * (⟨"Fast", 40, 6, 3⟩ : TxProtocol).bytesPerTx ∧
    sampleInstance.bitFreq ⟨"Fast", 40, 6, 3⟩ 1 = 7875 / 4 ∧
    sampleInstance.bitFreq ⟨"Fast", 40, 6, 3⟩ 1
      ≠ (((⟨"Fast", 40, 6, 3⟩ : TxProtocol).freqStart + 2 * 1 + 1 % 2 : Int) : ℚ)
          * sampleInstance.m_sampleRate / (sampleInstance.m_samplesPerFrame : ℚ) := by
  refine ⟨?_, ?_, by decide, by decide, by decide, ?_, ?_⟩ <;>
    norm_num [sampleInstance, Instance.bitFreq]

/-- C3 (amended): for every instance with `m_hzPerSample = sampleRate/samplesPerFrame`
and `m_freqDelta_hz = 2*m_hzPerSample`, every protocol `p` and every bit index `b` with
`0 <= b < 8*p.bytesPerTx`, `bitFreq(p, b)` equals
`(p.freqStart + 2*b) * sampleRate / samplesPerFrame`: bit `b` sits at bin
`freqStart + 2*b`, with no `(b mod 2)` term. -/
theorem bitFreq_eq_bin_frequency (g : Instance) (p : TxProtocol) (b : Int)
    (hHz : g.m_hzPerSample = g.m_sampleRate / (g.m_samplesPerFrame : ℚ))
    (hDelta : g.m_freqDelta_hz = 2 * g.m_hzPerSample)
    (hb0 : 0 ≤ b) (hb1 : b < p.nDataBitsPerTx) :
    g.bitFreq p b
      = ((p.freqStart + 2 * b : Int) : ℚ) * g.m_sampleRate / (g.m_samplesPerFrame : ℚ) := by
  unfold Instance.bitFreq
  rw [hDelta, hHz]
  push_cast
  ring

/-- Witness for C3 (amended): the default instance, AUDIBLE_FAST, bit 1. -/
theorem bitFreq_eq_bin_frequency_witness :
    sampleInstance.m_hzPerSample
      = sampleInstance.m_sampleRate / (sampleInstance.m_samplesPerFrame : ℚ) ∧
    sampleInstance.m_freqDelta_hz = 2 * sampleInstance.m_hzPerSample ∧
    (0 : Int) ≤ 1 ∧ (1 : Int) < (⟨"Fast", 40, 6, 3⟩ : TxProtocol).nDataBitsPerTx ∧
    sampleInstance.bitFreq ⟨"Fast", 40, 6, 3⟩ 1
      = (((40 : Int) + 2 * 1 : Int) : ℚ) * sampleInstance.m_sampleRate
          / (sampleInstance.m_samplesPerFrame : ℚ) :=
  ⟨by norm_num [sampleInstance], by norm_num [sampleInstance], by decide, by decide,
    bitFreq_eq_bin_frequency sampleInstance ⟨"Fast", 40, 6, 3⟩ 1
      (by norm_num [sampleInstance]) (by norm_num [sampleInstance])
      (by decide) (by decide)⟩

/-- C4 (as stated, refuted): `N = 512` satisfies `0 < N <= kMaxSamplesPerFrame`, yet the
ULTRASOUND_NORMAL entry has `freqStart + 16*bytesPerTx = 368 > 256 = N/2`. -/
theorem invariant_fails_at_512 :
    (0 : Int) < 512 ∧ (512 : Int) ≤ kMaxSamplesPerFrame ∧
    getTxProtocols.at GGWAVE_TX_PROTOCOL_ULTRASOUND_NORMAL = some ⟨"[U] Normal", 320, 9, 3⟩ ∧
    ¬ ((⟨"[U] Normal", 320, 9, 3⟩ : TxProtocol).freqStart
        + 16 * (⟨"[U] Normal", 320, 9, 3⟩ : TxProtocol).bytesPerTx ≤ (512 : Int) / 2) := by
  decide

/-- C4 (amended): for every samplesPerFrame `N` with `0 < N <= kMaxSamplesPerFrame`, the
invariant `freqStart + 16*bytesPerTx <= N/2` holds for every entry of the built-in table
exactly when `N >= 736`. -/
theorem invariant_iff_frame_size (N : Int) (h0 : 0 < N) (hN : N ≤ kMaxSamplesPerFrame) :
    (∀ e ∈ getTxProtocols, e.2.freqStart + 16 * e.2.bytesPerTx ≤ N / 2) ↔ 736 ≤ N := by
  simp only [getTxProtocols, List.forall_mem_cons, List.not_mem_nil, false_imp_iff,
    implies_true, and_true]
  constructor
  · rintro ⟨-, -, -, h, -⟩
    omega
  · intro h
    refine ⟨?_, ?_, ?_, ?_, ?_, ?_, ?_, ?_, ?_⟩ <;> omega

/-- Witness for C4 (amended): the default frame size `N = 1024`. -/
theorem invariant_iff_frame_size_witness :
    (0 : Int) < 1024 ∧ (1024 : Int) ≤ kMaxSamplesPerFrame ∧
    ((∀ e ∈ getTxProtocols, e.2.freqStart + 16 * e.2.bytesPerTx ≤ (1024 : Int) / 2)
      ↔ (736 : Int) ≤ 1024) :=
  ⟨by decide, by decide, invariant_iff_frame_size 1024 (by decide) (by decide)⟩

/-- C5: the enum `ggwave_TxProtocolId` has exactly 19 values, numbered 0..18 without
gaps or repeats; the values 0..8 are the nine built-in ids, one per (family, speed) pair,
each with exactly one entry in `getTxProtocols()`; the values 9..18 are
`CUSTOM_0 .. CUSTOM_9`, none with an entry in the table; within a family the three entries
share `freqStart` and `bytesPerTx`, and `framesPerTx` is 9, 6, 3 for normal, fast,
fastest. -/
theorem txProtocolId_space :
    Fintype.card ggwave_TxProtocolId = 19 ∧
    Function.Injective ggwave_TxProtocolId.toInt ∧
    (∀ n : Int, (∃ id : TxProtocolId, id.toInt = n) ↔ (0 ≤ n ∧ n ≤ 18)) ∧
    (∀ id : TxProtocolId, (0 ≤ id.toInt ∧ id.toInt ≤ 8) ↔ ∃ f s, builtinId f s = id) ∧
    (∀ f s f' s', builtinId f s = builtinId f' s' → f = f' ∧ s = s') ∧
    (∀ id : TxProtocolId, (0 ≤ id.toInt ∧ id.toInt ≤ 8) →
      getTxProtocols.countKey id = 1 ∧ (getTxProtocols.at id).isSome = true) ∧
    getTxProtocols.length = 9 ∧
    customIds.map ggwave_TxProtocolId.toInt = [9, 10, 11, 12, 13, 14, 15, 16, 17, 18] ∧
    (∀ id : TxProtocolId, (9 ≤ id.toInt ∧ id.toInt ≤ 18) ↔ id ∈ customIds) ∧
    (∀ id ∈ customIds, getTxProtocols.countKey id = 0 ∧ getTxProtocols.at id = none) ∧
    (∀ f s s', ∃ p q, getTxProtocols.at (builtinId f s) = some p ∧
      getTxProtocols.at (builtinId f s') = some q ∧
      p.freqStart = q.freqStart ∧ p.bytesPerTx = q.bytesPerTx) ∧
    (∀ f, (getTxProtocols.at (builtinId f .normal)).map TxProtocol.framesPerTx = some 9 ∧
      (getTxProtocols.at (builtinId f .fast)).map TxProtocol.framesPerTx = some 6 ∧
      (getTxProtocols.at (builtinId f .fastest)).map TxProtocol.framesPerTx = some 3) := by
  refine ⟨by decide, toInt_injective, ?_, by decide, by decide, by decide, by decide,
    by decide, by decide, by decide, ?_, by decide⟩
  · intro n
    constructor
    · rintro ⟨id, rfl⟩
      exact ⟨toInt_nonneg id, toInt_le id⟩
    · rintro ⟨h0, h18⟩
      interval_cases n <;> decide
  · intro f s s'
    cases f <;> cases s <;> cases s' <;> exact ⟨_, _, rfl, rfl, rfl, rfl⟩

/-- C6: for every integer `id`, `getTxProtocol(id)` returns a descriptor exactly when
`0 <= id <= 8`, and then it is the table entry stored under that id; for every other id,
every CUSTOM id included, the lookup fails; `getDefaultTxProtocol()` succeeds and returns
the AUDIBLE_FAST entry (freqStart 40, framesPerTx 6, bytesPerTx 3). -/
theorem getTxProtocol_lookup :
    (∀ id : Int, (getTxProtocol id).isSome = true ↔ (0 ≤ id ∧ id ≤ 8)) ∧
    (∀ id : Int, ¬ (0 ≤ id ∧ id ≤ 8) → getTxProtocol id = none) ∧
    (∀ e ∈ getTxProtocols,
      getTxProtocol e.1.toInt = some e.2 ∧ getTxProtocolOfId e.1 = some e.2) ∧
    (∀ id : Int, (0 ≤ id ∧ id ≤ 8) →
      ∃ e ∈ getTxProtocols, e.1.toInt = id ∧ getTxProtocol id = some e.2) ∧
    (∀ id ∈ customIds, getTxProtocol id.toInt = none ∧ getTxProtocolOfId id = none) ∧
    getDefaultTxProtocolId = GGWAVE_TX_PROTOCOL_AUDIBLE_FAST ∧
    getDefaultTxProtocol = some ⟨"Fast", 40, 6, 3⟩ ∧
    getDefaultTxProtocol = getTxProtocolOfId GGWAVE_TX_PROTOCOL_AUDIBLE_FAST := by
  have hnone : ∀ id : Int, ¬ (0 ≤ id ∧ id ≤ 8) → getTxProtocol id = none :=
    fun id h => atValue_none_of_not_builtin id h
  refine ⟨?_, hnone, ?_, ?_, by decide, rfl, by decide, rfl⟩
  · intro id
    constructor
    · intro h
      by_contra hc
      rw [hnone id hc] at h
      exact absurd h (by decide)
    · rintro ⟨h0, h8⟩
      interval_cases id <;> decide
  · intro e he
    exact ⟨atValue_of_mem e he, atValue_of_mem e he⟩
  · rintro id ⟨h0, h8⟩
    interval_cases id
    · exact ⟨(GGWAVE_TX_PROTOCOL_AUDIBLE_NORMAL, ⟨"Normal", 40, 9, 3⟩), by decide, by decide, by decide⟩
    · exact ⟨(GGWAVE_TX_PROTOCOL_AUDIBLE_FAST, ⟨"Fast", 40, 6, 3⟩), by decide, by decide, by decide⟩
    · exact ⟨(GGWAVE_TX_PROTOCOL_AUDIBLE_FASTEST, ⟨"Fastest", 40, 3, 3⟩), by decide, by decide, by decide⟩
    · exact ⟨(GGWAVE_TX_PROTOCOL_ULTRASOUND_NORMAL, ⟨"[U] Normal", 320, 9, 3⟩), by decide, by decide, by decide⟩
    · exact ⟨(GGWAVE_TX_PROTOCOL_ULTRASOUND_FAST, ⟨"[U] Fast", 320, 6, 3⟩), by decide, by decide, by decide⟩
    · exact ⟨(GGWAVE_TX_PROTOCOL_ULTRASOUND_FASTEST, ⟨"[U] Fastest", 320, 3, 3⟩), by decide, by decide, by decide⟩
    · exact ⟨(GGWAVE_TX_PROTOCOL_DT_NORMAL, ⟨"[DT] Normal", 24, 9, 1⟩), by decide, by decide, by decide⟩
    · exact ⟨(GGWAVE_TX_PROTOCOL_DT_FAST, ⟨"[DT] Fast", 24, 6, 1⟩), by decide, by decide, by decide⟩
    · exact ⟨(GGWAVE_TX_PROTOCOL_DT_FASTEST, ⟨"[DT] Fastest", 24, 3, 1⟩), by decide, by decide, by decide⟩

/-- C7: the size bounds have the documented values (kMaxDataSize = 256,
kMaxLengthVariable = 140, kMaxLengthFixed = 16, kMaxSamplesPerFrame = 1024,
kMaxSpectrumHistory = 4, kMaxRecordedFrames = 2048, kDefaultMarkerFrames = 16,
kDefaultEncodedDataOffset = 3), and kMaxLengthFixed <= kMaxLengthVariable <= kMaxDataSize,
so a payload of a length accepted in either mode fits a buffer of kMaxDataSize bytes. -/
theorem size_bounds_values :
    kMaxDataSize = 256 ∧ kMaxLengthVariable = 140 ∧ kMaxLengthFixed = 16 ∧
    kMaxSamplesPerFrame = 1024 ∧ kMaxSpectrumHistory = 4 ∧ kMaxRecordedFrames = 2048 ∧
    kDefaultMarkerFrames = 16 ∧ kDefaultEncodedDataOffset = 3 ∧
    kMaxLengthFixed ≤ kMaxLengthVariable ∧ kMaxLengthVariable ≤ kMaxDataSize ∧
    (∀ len : Int, (len ≤ kMaxLengthVariable ∨ len ≤ kMaxLengthFixed) → len ≤ kMaxDataSize) := by
  refine ⟨rfl, rfl, rfl, rfl, rfl, rfl, rfl, rfl, by decide, by decide, ?_⟩
  intro len h
  simp only [kMaxLengthVariable, kMaxLengthFixed, kMaxDataSize] at *
  omega

/-- C8: the defaults lie inside the validation bounds: kSampleRateMin (1000) <=
kDefaultSampleRate (48000) <= kSampleRateMax (96000) and 0 < kDefaultSamplesPerFrame (1024)
<= kMaxSamplesPerFrame. -/
theorem defaults_within_bounds :
    kSampleRateMin = 1000 ∧ kDefaultSampleRate = 48000 ∧ kSampleRateMax = 96000 ∧
    kDefaultSamplesPerFrame = 1024 ∧
    kSampleRateMin ≤ kDefaultSampleRate ∧ kDefaultSampleRate ≤ kSampleRateMax ∧
    0 < kDefaultSamplesPerFrame ∧ kDefaultSamplesPerFrame ≤ kMaxSamplesPerFrame := by
  refine ⟨rfl, rfl, rfl, rfl, ?_, ?_, by decide, by decide⟩ <;>
    norm_num [kSampleRateMin, kDefaultSampleRate, kSampleRateMax]

/-- C9: `p == q` holds exactly when the triples (freqStart, framesPerTx, bytesPerTx) of
`p` and `q` agree, whatever the names; so `==` is reflexive, symmetric and transitive,
and `p != q` is the negation of `p == q`. -/
theorem operator_eq_iff_triple :
    (∀ p q : TxProtocol, p.operator_eq q = true ↔
      (p.freqStart = q.freqStart ∧ p.framesPerTx = q.framesPerTx ∧
        p.bytesPerTx = q.bytesPerTx)) ∧
    (∀ (p q : TxProtocol) (n m : String),
      TxProtocol.operator_eq { p with name := n } { q with name := m }
        = p.operator_eq q) ∧
    (∀ p : TxProtocol, p.operator_eq p = true) ∧
    (∀ p q : TxProtocol, p.operator_eq q = true → q.operator_eq p = true) ∧
    (∀ p q r : TxProtocol, p.operator_eq q = true → q.operator_eq r = true →
      p.operator_eq r = true) ∧
    (∀ p q : TxProtocol, p.operator_ne q = !(p.operator_eq q)) ∧
    (∀ p q : TxProtocol, p.operator_ne q = true ↔ ¬ (p.operator_eq q = true)) := by
  have key : ∀ p q : TxProtocol, p.operator_eq q = true ↔
      (p.freqStart = q.freqStart ∧ p.framesPerTx = q.framesPerTx ∧
        p.bytesPerTx = q.bytesPerTx) := by
    intro p q
    simp [TxProtocol.operator_eq, and_assoc]
  refine ⟨key, ?_, ?_, ?_, ?_, ?_, ?_⟩
  · intro p q n m
    rfl
  · intro p
    exact (key p p).2 ⟨rfl, rfl, rfl⟩
  · intro p q h
    obtain ⟨h1, h2, h3⟩ := (key p q).1 h
    exact (key q p).2 ⟨h1.symm, h2.symm, h3.symm⟩
  · intro p q r hpq hqr
    obtain ⟨h1, h2, h3⟩ := (key p q).1 hpq
    obtain ⟨k1, k2, k3⟩ := (key q r).1 hqr
    exact (key p r).2 ⟨h1.trans k1, h2.trans k2, h3.trans k3⟩
  · intro p q
    rfl
  · intro p q
    simp [TxProtocol.operator_ne]

/-- C10: for every protocol `p` and every bit index `b >= 0`,
`bitFreq(p, b+1) - bitFreq(p, b)` is the instance's `m_freqDelta_hz` (the same for all
bits and all protocols), `bitFreq(p, 0) = m_hzPerSample * p.freqStart`, and when the
spacing is two bins (`m_freqDelta_hz = 2*m_hzPerSample`) bit `b` lies `2*b` bins above
the start bin: `bitFreq(p, b) = m_hzPerSample * (p.freqStart + 2*b)`. -/
theorem bitFreq_uniform_spacing (g : Instance) (p : TxProtocol) (b : Int) (hb : 0 ≤ b) :
    g.bitFreq p (b + 1) - g.bitFreq p b = g.m_freqDelta_hz ∧
    g.bitFreq p 0 = g.m_hzPerSample * (p.freqStart : ℚ) ∧
    (g.m_freqDelta_hz = 2 * g.m_hzPerSample →
      g.bitFreq p b = g.m_hzPerSample * ((p.freqStart + 2 * b : Int) : ℚ) ∧
      g.bitFreq p b - g.bitFreq p 0 = (2 * b : Int) * g.m_hzPerSample) := by
  refine ⟨?_, ?_, ?_⟩
  · simp only [Instance.bitFreq]
    push_cast
    ring
  · simp [Instance.bitFreq]
  · intro hDelta
    simp only [Instance.bitFreq, hDelta]
    push_cast
    constructor <;> ring

/-- Witness for C10: the default instance, AUDIBLE_FAST, bit 3. -/
theorem bitFreq_uniform_spacing_witness :
    (0 : Int) ≤ 3 ∧
    sampleInstance.m_freqDelta_hz = 2 * sampleInstance.m_hzPerSample ∧
    (sampleInstance.bitFreq ⟨"Fast", 40, 6, 3⟩ (3 + 1)
        - sampleInstance.bitFreq ⟨"Fast", 40, 6, 3⟩ 3 = sampleInstance.m_freqDelta_hz ∧
      sampleInstance.bitFreq ⟨"Fast", 40, 6, 3⟩ 0
        = sampleInstance.m_hzPerSample * (((⟨"Fast", 40, 6, 3⟩ : TxProtocol).freqStart : Int) : ℚ) ∧
      (sampleInstance.m_freqDelta_hz = 2 * sampleInstance.m_hzPerSample →
        sampleInstance.bitFreq ⟨"Fast", 40, 6, 3⟩ 3
          = sampleInstance.m_hzPerSample
              * (((⟨"Fast", 40, 6, 3⟩ : TxProtocol).freqStart + 2 * 3 : Int) : ℚ) ∧
        sampleInstance.bitFreq ⟨"Fast", 40, 6, 3⟩ 3 - sampleInstance.bitFreq ⟨"Fast", 40, 6, 3⟩ 0
          = ((2 * 3 : Int) : ℚ) * sampleInstance.m_hzPerSample)) :=
  ⟨by decide, by norm_num [sampleInstance],
    bitFreq_uniform_spacing sampleInstance ⟨"Fast", 40, 6, 3⟩ 3 (by decide)⟩

/-- C11: the built-in protocols are pairwise distinguishable: two entries of
`getTxProtocols()` stored under different ids are never equal under `operator==` (their
triples differ), so a descriptor that compares equal to a table entry determines that
entry's id. -/
theorem builtin_pairwise_distinct :
    (∀ e₁ ∈ getTxProtocols, ∀ e₂ ∈ getTxProtocols, e₁.1 ≠ e₂.1 →
      e₁.2.operator_eq e₂.2 = false ∧ e₁.2.operator_ne e₂.2 = true ∧
      (e₁.2.freqStart, e₁.2.framesPerTx, e₁.2.bytesPerTx)
        ≠ (e₂.2.freqStart, e₂.2.framesPerTx, e₂.2.bytesPerTx)) ∧
    (∀ i j : TxProtocolId, ∀ p q : TxProtocol,
      getTxProtocols.at i = some p → getTxProtocols.at j = some q → i ≠ j →
      p.operator_eq q = false) ∧
    (∀ d : TxProtocol, ∀ e₁ ∈ getTxProtocols, ∀ e₂ ∈ getTxProtocols,
      d.operator_eq e₁.2 = true → d.operator_eq e₂.2 = true → e₁.1 = e₂.1) := by
  have hpair : ∀ e₁ ∈ getTxProtocols, ∀ e₂ ∈ getTxProtocols, e₁.1 ≠ e₂.1 →
      e₁.2.operator_eq e₂.2 = false := by decide
  refine ⟨by decide, ?_, ?_⟩
  · intro i j p q hi hj hij
    have hmem : ∀ (k : TxProtocolId) (r : TxProtocol),
        getTxProtocols.at k = some r → (k, r) ∈ getTxProtocols := by
      intro k r h
      cases k <;> simp [TxProtocols.at, TxProtocols.atValue, getTxProtocols,
        ggwave_TxProtocolId.toInt, ggwave_TxProtocolId.toCtorIdx] at h <;> subst h <;> decide
    exact hpair (i, p) (hmem i p hi) (j, q) (hmem j q hj) hij
  · intro d e₁ h₁ e₂ h₂ hd₁ hd₂
    by_contra hne
    have hfalse := hpair e₁ h₁ e₂ h₂ hne
    have htrue : e₁.2.operator_eq e₂.2 = true := by
      simp only [TxProtocol.operator_eq, Bool.and_eq_true, beq_iff_eq] at hd₁ hd₂ ⊢
      obtain ⟨⟨a₁, a₂⟩, a₃⟩ := hd₁
      obtain ⟨⟨b₁, b₂⟩, b₃⟩ := hd₂
      exact ⟨⟨a₁.symm.trans b₁, a₂.symm.trans b₂⟩, a₃.symm.trans b₃⟩
    rw [hfalse] at htrue
    exact absurd htrue (by decide)

/-- C12: for every entry `p` of `getTxProtocols()` and every encoded length
`E <= kDefaultEncodedDataOffset + kMaxLengthVariable + kMaxLengthVariable/2` (= 213),
the frame count `2*kDefaultMarkerFrames + ceil(E / p.bytesPerTx) * p.framesPerTx` is at
most `kMaxRecordedFrames` (2048). -/
theorem max_variable_transmission_fits (e : TxProtocolId × TxProtocol)
    (he : e ∈ getTxProtocols) (E : Int) (hE : E ≤ maxEncodedLengthVariable) :
    maxEncodedLengthVariable = 213 ∧
    framesForEncodedLength e.2 E ≤ kMaxRecordedFrames := by
  have h213 : maxEncodedLengthVariable = 213 := by decide
  refine ⟨h213, ?_⟩
  rw [h213] at hE
  have hEq : (E : ℚ) ≤ 213 := by exact_mod_cast hE
  have hc : ∀ b : ℚ, 1 ≤ b → ⌈(E : ℚ) / b⌉ ≤ 213 := by
    intro b hb
    rw [Int.ceil_le]
    have hbpos : (0 : ℚ) < b := by linarith
    rw [div_le_iff₀ hbpos]
    push_cast
    by_cases hneg : (E : ℚ) ≤ 0
    · nlinarith
    · nlinarith
  have h3 := hc 3 (by norm_num)
  have h1 := hc 1 (by norm_num)
  push_cast at h3 h1
  simp only [getTxProtocols, List.mem_cons, List.mem_singleton, List.not_mem_nil,
    or_false] at he
  rcases he with h | h | h | h | h | h | h | h | h <;> subst h <;>
    simp only [framesForEncodedLength, kDefaultMarkerFrames, kMaxRecordedFrames] <;>
    push_cast <;> omega

/-- Witness for C12: the DT_NORMAL entry (one byte per symbol, nine frames per symbol)
at the largest encoded length 213. -/
theorem max_variable_transmission_fits_witness :
    ((GGWAVE_TX_PROTOCOL_DT_NORMAL, (⟨"[DT] Normal", 24, 9, 1⟩ : TxProtocol))
      ∈ getTxProtocols) ∧
    (213 : Int) ≤ maxEncodedLengthVariable ∧
    (maxEncodedLengthVariable = 213 ∧
      framesForEncodedLength (⟨"[DT] Normal", 24, 9, 1⟩ : TxProtocol) 213
        ≤ kMaxRecordedFrames) :=
  ⟨by decide, by decide,
    max_variable_transmission_fits
      (GGWAVE_TX_PROTOCOL_DT_NORMAL, ⟨"[DT] Normal", 24, 9, 1⟩) (by decide) 213 (by decide)⟩

end GGWave
